import Mathlib

/-!
Verification of the bldbl-mcp client and tool dispatcher.

This file is a shallow embedding of the TypeScript sources:
- the type definitions (src/types.ts),
- the HTTP client class BuildableMCPClient (src/client.ts),
- the tool registry of the stdio server (src/cli.ts).

Modelling conventions:
- A JS value that may be undefined is an Option.
- JS string truthiness (s || d picks d when s is undefined or empty) is the
  function jsOr below.
- The HTTP transport is an oracle: each network call receives an explicit
  TransportOutcome argument (a 2xx response with an optional body, or a
  failure carrying the transport message and the optional response body).
  The axios response interceptor turns every failure into a formatted
  APIError, which is modelled inside makeRequest.
- A Client method returns the list of HTTP requests it issued together with
  an Except APIError result; a thrown error is the Except.error case.
- Timestamps (new Date().toISOString()) are passed in as an explicit
  now : String parameter.
-/

set_option autoImplicit false

namespace Bldbl

/-! ### Data model (src/types.ts) -/

inductive ProjectStatus where
  | planning | in_progress | completed | paused
deriving DecidableEq

inductive TaskStatus where
  | pending | in_progress | completed
deriving DecidableEq

inductive Difficulty where
  | easy | medium | hard
deriving DecidableEq

inductive Urgency where
  | low | medium | high
deriving DecidableEq

structure BuildableConfig where
  apiUrl : String
  apiKey : String
  projectId : String
  aiAssistantId : Option String
  timeout : Option Int
deriving DecidableEq

structure ClientOptions where
  retryAttempts : Option Int
  retryDelay : Option Int
  enableRealTimeUpdates : Option Bool
  logLevel : Option String
deriving DecidableEq

structure TaskSummary where
  id : String
  title : String
  description : String
  status : TaskStatus
  phase : String
  difficulty : Difficulty
  estimated_hours : Int
  technologies : List String
  dependencies : List String
  files_to_modify : List String
  acceptance_criteria : List String
  context_summary : Option String
  commands : Option (List String)
  reference_impl : Option String
  rollback_plan : Option String
  success_checks : Option (List String)
  estimated_tokens : Option Int
  skill_tags : Option (List String)
deriving DecidableEq

structure ProjectInfo where
  id : String
  title : String
  description : String
  status : ProjectStatus
  created_at : String
  updated_at : String
deriving DecidableEq

structure ProjectPlan where
  overview : String
  technology_stack : List String
  architecture : String
  timeline : String
  requirements : List String
  technical_specifications : String
deriving DecidableEq

structure ProjectTasks where
  total : Int
  completed : Int
  in_progress : Int
  pending : Int
  summary : List TaskSummary
deriving DecidableEq

structure ProjectContextInfo where
  recent_activity : List String
  current_phase : String
  next_priorities : List String
deriving DecidableEq

structure ProjectContext where
  project : ProjectInfo
  plan : ProjectPlan
  tasks : ProjectTasks
  context : ProjectContextInfo
deriving DecidableEq

structure NextTaskContext where
  phase : String
  dependencies_met : Bool
  recommended_approach : String
  related_files : List String
deriving DecidableEq

structure NextTaskResponse where
  success : Bool
  task : Option TaskSummary
  message : String
  context : Option NextTaskContext
deriving DecidableEq

structure StartTaskOptions where
  approach : Option String
  estimated_duration : Option Int
  notes : Option String
deriving DecidableEq

structure StartTaskGuidance where
  step_by_step : List String
  key_considerations : List String
  testing_requirements : List String
  documentation_needs : List String
deriving DecidableEq

structure StartTaskResponse where
  success : Bool
  task_id : String
  message : String
  started_at : String
  guidance : Option StartTaskGuidance
deriving DecidableEq

structure ProgressUpdate where
  progress : Int
  status_update : String
  completed_steps : Option (List String)
  current_step : Option String
  challenges : Option (List String)
  time_spent : Option Int
  files_modified : Option (List String)
  notes : Option String
deriving DecidableEq

structure ProgressResponse where
  success : Bool
  message : String
  updated_at : String
  overall_progress : Int
  next_suggestions : Option (List String)
deriving DecidableEq

structure CompleteTaskRequest where
  completion_notes : String
  files_modified : List String
  testing_completed : Bool
  documentation_updated : Bool
  time_spent : Int
  challenges_faced : Option (List String)
  lessons_learned : Option (List String)
  next_recommendations : Option (List String)
deriving DecidableEq

structure CompletedTaskSummary where
  title : String
  time_spent : Int
  files_modified : List String
  impact : String
deriving DecidableEq

structure NextTaskSuggestion where
  id : String
  title : String
  reason : String
deriving DecidableEq

structure CompleteTaskResponse where
  success : Bool
  message : String
  completed_at : String
  task_summary : CompletedTaskSummary
  next_task_suggestion : Option NextTaskSuggestion
deriving DecidableEq

structure DiscussionContextRequest where
  current_task_id : Option String
  related_files : Option (List String)
  specific_challenge : Option String
  urgency : Option Urgency
deriving DecidableEq

structure CreateDiscussionRequest where
  topic : String
  message : String
  context : Option DiscussionContextRequest
deriving DecidableEq

inductive DiscussionState where
  | pending | responded | resolved
deriving DecidableEq

structure DiscussionResponse where
  success : Bool
  discussion_id : String
  status : DiscussionState
  created_at : String
  estimated_response_time : Option String
  ai_response : Option String
  follow_up_questions : Option (List String)
deriving DecidableEq

structure HealthStatus where
  status : String
  timestamp : String
deriving DecidableEq

structure APIError where
  error : String
  code : Option String
  details : Option String
  timestamp : String
deriving DecidableEq

structure MCPResponse (A : Type) where
  success : Bool
  data : Option A
  error : Option APIError
  timestamp : String
deriving DecidableEq

structure ConnectionData where
  ai_assistant_id : String
  status : String
  connected_at : String
  last_activity_at : String
deriving DecidableEq

structure ConnectionsPayload where
  connections : Option (List ConnectionData)
deriving DecidableEq

/-! ### Transport model -/

/-- Body of error.response.data as the client reads it: an arbitrary remote
JSON object, of which the client inspects the fields error, message, code and
details (details is kept as an opaque rendered value). -/
structure RemoteErrorBody where
  error : Option String
  message : Option String
  code : Option String
  details : Option String
deriving DecidableEq

/-- A failed axios call: the transport message (error.message) and the
optional HTTP response body (error.response?.data). A pure network error has
responseData = none; a non-2xx response carries its body. -/
structure TransportError where
  message : String
  responseData : Option RemoteErrorBody
deriving DecidableEq

/-- Outcome of one HTTP call: ok is a 2xx response whose body response.data
may be absent (undefined); fail is a network error or non-2xx response. -/
inductive TransportOutcome (A : Type) where
  | ok (body : Option A)
  | fail (e : TransportError)
deriving DecidableEq

/-- JS string-or-default: a || b where a may be undefined and the empty
string is falsy. -/
def jsOr (a : Option String) (b : String) : String :=
  match a with
  | none => b
  | some s => if s = "" then b else s

/-- BuildableMCPClient.formatError: start from error.message || a fixed
fallback, then, when a response body is present, prefer its truthy error
field, then its truthy message field; copy code and details from the body. -/
def formatError (e : TransportError) (now : String) : APIError :=
  let base : APIError :=
    { error := jsOr (some e.message) "Unknown API error"
      code := none
      details := none
      timestamp := now }
  match e.responseData with
  | none => base
  | some rd =>
      { error := jsOr rd.error (jsOr rd.message base.error)
        code := rd.code
        details := rd.details
        timestamp := now }

/-- BuildableMCPClient.makeRequest: a 2xx outcome is wrapped in an envelope
with success = true and data = response.data; a failure is rethrown as the
APIError produced by the response interceptor (formatError). -/
def makeRequest {A : Type} (o : TransportOutcome A) (now : String) :
    Except APIError (MCPResponse A) :=
  match o with
  | .ok body => .ok { success := true, data := body, error := none, timestamp := now }
  | .fail e => .error (formatError e now)

/-! ### Client construction (BuildableMCPClient constructor) -/

/-- A Client instance: the config captured at construction and the random
fragment (uuidv4().substring(0, 8)) that would be used when the config
supplies no assistant id. -/
structure Client where
  config : BuildableConfig
  freshId : String
deriving DecidableEq

/-- The assistant id fixed at construction:
config.aiAssistantId || ("ai_" + uuid fragment). -/
def clientAssistantId (config : BuildableConfig) (freshId : String) : String :=
  jsOr config.aiAssistantId ("ai_" ++ freshId)

/-- The fixed default headers installed on the axios instance at
construction. -/
structure Headers where
  authorization : String
  xAiAssistantId : String
  contentType : String
  userAgent : String
deriving DecidableEq

def clientHeaders (config : BuildableConfig) (freshId : String) : Headers :=
  { authorization := "Bearer " ++ config.apiKey
    xAiAssistantId := clientAssistantId config freshId
    contentType := "application/json"
    userAgent := "@bldbl/mcp/1.0.0" }

/-! ### Outbound request bodies, field for field from client.ts -/

/-- Body of POST /tasks/(id)/start. -/
structure StartTaskBody where
  ai_assistant_id : String
  estimated_time_minutes : Option Int
  notes : Option String
  approach : Option String
deriving DecidableEq

/-- Body of POST /tasks/(id)/progress. -/
structure ProgressBody where
  completion_percentage : Int
  files_created : Option (List String)
  files_modified : Option (List String)
  notes : Option String
  blockers : Option (List String)
  time_spent_minutes : Option Int
  current_step : Option String
  completed_steps : Option (List String)
deriving DecidableEq

/-- Body of POST /tasks/(id)/complete. -/
structure CompleteBody where
  files_created : List String
  files_modified : List String
  completion_notes : String
  time_spent_minutes : Int
  verification_evidence : Option String
deriving DecidableEq

/-- The context object nested in the discussion body. -/
structure DiscussContextBody where
  task_id : Option String
  relevant_files : Option (List String)
  specific_challenge : Option String
  urgency : Urgency
deriving DecidableEq

/-- Body of POST /projects/(id)/discuss. -/
structure DiscussBody where
  type : String
  title : String
  message : String
  context : DiscussContextBody
  urgency : Urgency
  requires_human_response : Bool
  created_by : String
deriving DecidableEq

inductive ConnStatus where
  | connected | working | disconnected
deriving DecidableEq

structure HeartbeatMetadata where
  client_version : String
  capabilities : List String
  last_activity : String
deriving DecidableEq

/-- Body of POST /internal/ai-connections. -/
structure HeartbeatBody where
  ai_assistant_id : String
  status : ConnStatus
  current_task_id : Option String
  metadata : HeartbeatMetadata
deriving DecidableEq

inductive Method where
  | get | post | put | delete
deriving DecidableEq

inductive RequestBody where
  | empty
  | start (b : StartTaskBody)
  | progress (b : ProgressBody)
  | complete (b : CompleteBody)
  | discuss (b : DiscussBody)
  | heartbeat (b : HeartbeatBody)
deriving DecidableEq

/-- One HTTP request as it leaves the axios instance. -/
structure IssuedRequest where
  method : Method
  url : String
  headers : Headers
  body : RequestBody
deriving DecidableEq

/-- Every call goes through the axios instance created in the constructor,
so it carries the instance headers fixed there. -/
def issued (c : Client) (m : Method) (url : String) (b : RequestBody) : IssuedRequest :=
  { method := m, url := url, headers := clientHeaders c.config c.freshId, body := b }

/-! ### Client operations (BuildableMCPClient methods)

Each operation takes the transport outcomes of the calls it may perform and
returns the list of issued requests paired with its result; Except.error is
a thrown APIError. A result of type Option R models response.data! , which
is undefined when a 2xx response had no body. -/

def heartbeatBody (c : Client) (status : ConnStatus) (currentTaskId : Option String)
    (now : String) : HeartbeatBody :=
  { ai_assistant_id := clientAssistantId c.config c.freshId
    status := status
    current_task_id := currentTaskId
    metadata :=
      { client_version := "1.0.0"
        capabilities := ["task_management", "progress_tracking", "discussions"]
        last_activity := now } }

/-- BuildableMCPClient.updateConnectionStatus: posts the heartbeat and
swallows any failure (the catch only logs); it never throws. -/
def updateConnectionStatus (c : Client) (status : ConnStatus) (currentTaskId : Option String)
    (hb : TransportOutcome Unit) (now : String) :
    List IssuedRequest × Except APIError Unit :=
  let req := issued c .post "/internal/ai-connections"
    (.heartbeat (heartbeatBody c status currentTaskId now))
  match hb with
  | .ok _ => ([req], .ok ())
  | .fail _ => ([req], .ok ())

/-- BuildableMCPClient.getProjectContext. -/
def getProjectContext (c : Client) (primary : TransportOutcome ProjectContext) (now : String) :
    List IssuedRequest × Except APIError (Option ProjectContext) :=
  let req := issued c .get ("/projects/" ++ c.config.projectId ++ "/context") .empty
  match makeRequest primary now with
  | .ok env => ([req], .ok env.data)
  | .error e => ([req], .error e)

/-- BuildableMCPClient.getNextTask. -/
def getNextTask (c : Client) (primary : TransportOutcome NextTaskResponse) (now : String) :
    List IssuedRequest × Except APIError (Option NextTaskResponse) :=
  let req := issued c .get ("/projects/" ++ c.config.projectId ++ "/next-task") .empty
  match makeRequest primary now with
  | .ok env => ([req], .ok env.data)
  | .error e => ([req], .error e)

def startTaskBody (c : Client) (options : StartTaskOptions) : StartTaskBody :=
  { ai_assistant_id := clientAssistantId c.config c.freshId
    estimated_time_minutes := options.estimated_duration
    notes := options.notes
    approach := options.approach }

/-- BuildableMCPClient.startTask: on primary success, one heartbeat with
status working and the task id, whose outcome is ignored. -/
def startTask (c : Client) (taskId : String) (options : StartTaskOptions)
    (primary : TransportOutcome StartTaskResponse) (hb : TransportOutcome Unit) (now : String) :
    List IssuedRequest × Except APIError (Option StartTaskResponse) :=
  let req := issued c .post ("/tasks/" ++ taskId ++ "/start") (.start (startTaskBody c options))
  match makeRequest primary now with
  | .error e => ([req], .error e)
  | .ok env =>
      let hbCall := updateConnectionStatus c .working (some taskId) hb now
      (req :: hbCall.1, .ok env.data)

/-- The field-renaming mapping from the external ProgressUpdate to the body
of POST /tasks/(id)/progress. -/
def updateProgressBody (p : ProgressUpdate) : ProgressBody :=
  { completion_percentage := p.progress
    files_created := p.files_modified
    files_modified := p.files_modified
    notes := p.notes
    blockers := p.challenges
    time_spent_minutes := p.time_spent
    current_step := p.current_step
    completed_steps := p.completed_steps }

/-- BuildableMCPClient.updateProgress. -/
def updateProgress (c : Client) (taskId : String) (p : ProgressUpdate)
    (primary : TransportOutcome ProgressResponse) (hb : TransportOutcome Unit) (now : String) :
    List IssuedRequest × Except APIError (Option ProgressResponse) :=
  let req := issued c .post ("/tasks/" ++ taskId ++ "/progress")
    (.progress (updateProgressBody p))
  match makeRequest primary now with
  | .error e => ([req], .error e)
  | .ok env =>
      let hbCall := updateConnectionStatus c .working (some taskId) hb now
      (req :: hbCall.1, .ok env.data)

def completeTaskBody (r : CompleteTaskRequest) : CompleteBody :=
  { files_created := r.files_modified
    files_modified := r.files_modified
    completion_notes := r.completion_notes
    time_spent_minutes := r.time_spent
    verification_evidence := if r.testing_completed then some "Tests passed" else none }

/-- BuildableMCPClient.completeTask: on primary success, one heartbeat with
status connected and no current task. -/
def completeTask (c : Client) (taskId : String) (r : CompleteTaskRequest)
    (primary : TransportOutcome CompleteTaskResponse) (hb : TransportOutcome Unit) (now : String) :
    List IssuedRequest × Except APIError (Option CompleteTaskResponse) :=
  let req := issued c .post ("/tasks/" ++ taskId ++ "/complete")
    (.complete (completeTaskBody r))
  match makeRequest primary now with
  | .error e => ([req], .error e)
  | .ok env =>
      let hbCall := updateConnectionStatus c .connected none hb now
      (req :: hbCall.1, .ok env.data)

/-- The body of the discussion request. The urgency enum values are the
nonempty strings low, medium, high, so the JS default
(discussion.context?.urgency || medium) is Option.getD. -/
def discussBody (c : Client) (d : CreateDiscussionRequest) : DiscussBody :=
  { type := "question"
    title := d.topic
    message := d.message
    context :=
      { task_id := d.context.bind (fun ctx => ctx.current_task_id)
        relevant_files := d.context.bind (fun ctx => ctx.related_files)
        specific_challenge := d.context.bind (fun ctx => ctx.specific_challenge)
        urgency := (d.context.bind (fun ctx => ctx.urgency)).getD .medium }
    urgency := (d.context.bind (fun ctx => ctx.urgency)).getD .medium
    requires_human_response := true
    created_by := clientAssistantId c.config c.freshId }

/-- BuildableMCPClient.createDiscussion. -/
def createDiscussion (c : Client) (d : CreateDiscussionRequest)
    (primary : TransportOutcome DiscussionResponse) (now : String) :
    List IssuedRequest × Except APIError (Option DiscussionResponse) :=
  let req := issued c .post ("/projects/" ++ c.config.projectId ++ "/discuss")
    (.discuss (discussBody c d))
  match makeRequest primary now with
  | .ok env => ([req], .ok env.data)
  | .error e => ([req], .error e)

/-- BuildableMCPClient.healthCheck. -/
def healthCheck (c : Client) (primary : TransportOutcome HealthStatus) (now : String) :
    List IssuedRequest × Except APIError (Option HealthStatus) :=
  let req := issued c .get "/health" .empty
  match makeRequest primary now with
  | .ok env => ([req], .ok env.data)
  | .error e => ([req], .error e)

/-- BuildableMCPClient.connect: updateConnectionStatus already swallows, and
connect catches anyway; never throws. -/
def connect (c : Client) (hb : TransportOutcome Unit) (now : String) :
    List IssuedRequest × Except APIError Unit :=
  let call := updateConnectionStatus c .connected none hb now
  match call.2 with
  | .ok _ => (call.1, .ok ())
  | .error _ => (call.1, .ok ())

/-- BuildableMCPClient.disconnect: same shape as connect, with status
disconnected; never throws. -/
def disconnect (c : Client) (hb : TransportOutcome Unit) (now : String) :
    List IssuedRequest × Except APIError Unit :=
  let call := updateConnectionStatus c .disconnected none hb now
  match call.2 with
  | .ok _ => (call.1, .ok ())
  | .error _ => (call.1, .ok ())

structure ConnectionView where
  status : String
  connected_at : String
  last_activity_at : String
deriving DecidableEq

/-- BuildableMCPClient.getConnectionStatus: a plain axios.get; any failure
(including reading connections off an undefined body) is caught and turned
into the unknown view; an ok body is filtered for this assistant id. -/
def getConnectionStatus (c : Client) (outcome : TransportOutcome ConnectionsPayload)
    (_now : String) : List IssuedRequest × ConnectionView :=
  let req := issued c .get ("/projects/" ++ c.config.projectId ++ "/ai-connections") .empty
  match outcome with
  | .ok (some payload) =>
      let connections := payload.connections.getD []
      let mine := connections.find? (fun conn =>
        conn.ai_assistant_id = clientAssistantId c.config c.freshId)
      ([req],
        match mine with
        | some conn =>
            { status := conn.status
              connected_at := conn.connected_at
              last_activity_at := conn.last_activity_at }
        | none => { status := "disconnected", connected_at := "", last_activity_at := "" })
  | .ok none => ([req], { status := "unknown", connected_at := "", last_activity_at := "" })
  | .fail _ => ([req], { status := "unknown", connected_at := "", last_activity_at := "" })

/-! ### Client lifetime: any sequence of public method calls -/

/-- One public method call on a Client, with the transport outcomes the
environment supplies to it. -/
inductive ClientCall where
  | getProjectContext (primary : TransportOutcome ProjectContext)
  | getNextTask (primary : TransportOutcome NextTaskResponse)
  | startTask (taskId : String) (options : StartTaskOptions)
      (primary : TransportOutcome StartTaskResponse) (hb : TransportOutcome Unit)
  | updateProgress (taskId : String) (p : ProgressUpdate)
      (primary : TransportOutcome ProgressResponse) (hb : TransportOutcome Unit)
  | completeTask (taskId : String) (r : CompleteTaskRequest)
      (primary : TransportOutcome CompleteTaskResponse) (hb : TransportOutcome Unit)
  | createDiscussion (d : CreateDiscussionRequest) (primary : TransportOutcome DiscussionResponse)
  | healthCheck (primary : TransportOutcome HealthStatus)
  | connect (hb : TransportOutcome Unit)
  | disconnect (hb : TransportOutcome Unit)
  | getConnectionStatus (outcome : TransportOutcome ConnectionsPayload)
deriving DecidableEq

/-- The HTTP requests a Client issues while serving one public call. -/
def requestsOfCall (c : Client) (now : String) : ClientCall → List IssuedRequest
  | .getProjectContext primary => (getProjectContext c primary now).1
  | .getNextTask primary => (getNextTask c primary now).1
  | .startTask taskId options primary hb => (startTask c taskId options primary hb now).1
  | .updateProgress taskId p primary hb => (updateProgress c taskId p primary hb now).1
  | .completeTask taskId r primary hb => (completeTask c taskId r primary hb now).1
  | .createDiscussion d primary => (createDiscussion c d primary now).1
  | .healthCheck primary => (healthCheck c primary now).1
  | .connect hb => (connect c hb now).1
  | .disconnect hb => (disconnect c hb now).1
  | .getConnectionStatus outcome => (getConnectionStatus c outcome now).1

/-! ### Tool dispatcher (src/cli.ts) -/

/-- Failure modes of a tool invocation: rejection by the input schema
(performed by the server SDK against the zod schema declared in cli.ts,
before the handler runs), the handler guard when no Client exists yet, or a
propagated client APIError. -/
inductive ToolError where
  | invalidArguments
  | notConnected
  | api (e : APIError)
deriving DecidableEq

/-- Arguments of the update_progress tool as declared in cli.ts. -/
structure UpdateProgressArgs where
  task_id : String
  progress : Int
  status_update : String
  completed_steps : Option (List String)
  current_step : Option String
  challenges : Option (List String)
  files_modified : Option (List String)
  time_spent : Option Int
  notes : Option String
deriving DecidableEq

/-- The zod bound on update_progress: progress has min(0).max(100); every
other field is only typed. -/
def validUpdateProgressArgs (a : UpdateProgressArgs) : Prop :=
  0 ≤ a.progress ∧ a.progress ≤ 100

instance (a : UpdateProgressArgs) : Decidable (validUpdateProgressArgs a) :=
  inferInstanceAs (Decidable (_ ∧ _))

/-- The handler packs the validated arguments into a ProgressUpdate,
field for field. -/
def argsToProgressUpdate (a : UpdateProgressArgs) : ProgressUpdate :=
  { progress := a.progress
    status_update := a.status_update
    completed_steps := a.completed_steps
    current_step := a.current_step
    challenges := a.challenges
    time_spent := a.time_spent
    files_modified := a.files_modified
    notes := a.notes }

/-- The update_progress tool: schema validation first (so a rejected
invocation issues no request and reaches no Client method), then the
handler guard on the Client, then BuildableMCPClient.updateProgress. -/
def updateProgressTool (client : Option Client) (a : UpdateProgressArgs)
    (primary : TransportOutcome ProgressResponse) (hb : TransportOutcome Unit) (now : String) :
    List IssuedRequest × Except ToolError (Option ProgressResponse) :=
  if validUpdateProgressArgs a then
    match client with
    | none => ([], .error .notConnected)
    | some c =>
        let call := updateProgress c a.task_id (argsToProgressUpdate a) primary hb now
        match call.2 with
        | .ok v => (call.1, .ok v)
        | .error e => (call.1, .error (.api e))
  else ([], .error .invalidArguments)

/-! ### Spec-worded definitions used for refinement comparisons -/

/-- The response body of a 2xx outcome; a failure has no 2xx body. -/
def TransportOutcome.body {A : Type} : TransportOutcome A → Option A
  | .ok b => b
  | .fail _ => none

/-- Follows the words of the error-priority claim: the APIError error field
equals the response body error field if present, otherwise the body message
field if present, otherwise the transport message. Presence is read
literally, without the JS truthiness test the code performs. -/
def claimedErrorFieldC1 (e : TransportError) : String :=
  match e.responseData with
  | some rd =>
      match rd.error with
      | some s => s
      | none =>
          match rd.message with
          | some m => m
          | none => e.message
  | none => e.message

/-- The amended priority, matching the code: body error field if present
and nonempty, else body message field if present and nonempty, else the
transport message if nonempty, else the fixed string Unknown API error. -/
def amendedErrorFieldC1 (e : TransportError) : String :=
  let transportMsg := if e.message = "" then "Unknown API error" else e.message
  match e.responseData with
  | none => transportMsg
  | some rd =>
      match rd.error with
      | some s =>
          if s = "" then
            match rd.message with
            | some m => if m = "" then transportMsg else m
            | none => transportMsg
          else s
      | none =>
          match rd.message with
          | some m => if m = "" then transportMsg else m
          | none => transportMsg

/-! ### Concrete sample values used to instantiate theorems -/

def sampleConfig : BuildableConfig :=
  { apiUrl := "https://bldbl.dev/api", apiKey := "k", projectId := "p"
    aiAssistantId := none, timeout := none }

def sampleClient : Client :=
  { config := sampleConfig, freshId := "abc12345" }

/-! ### Theorems -/

/-- Helper for the header invariant: every request of one public call
carries the headers fixed at construction. -/
theorem headers_of_mem_requestsOfCall (c : Client) (now : String) (call : ClientCall)
    (req : IssuedRequest) (hmem : req ∈ requestsOfCall c now call) :
    req.headers = clientHeaders c.config c.freshId := by
  cases call with
  | getProjectContext primary =>
      cases primary <;>
        simp [requestsOfCall, getProjectContext, makeRequest, issued] at hmem <;>
        (try subst hmem) <;> rfl
  | getNextTask primary =>
      cases primary <;>
        simp [requestsOfCall, getNextTask, makeRequest, issued] at hmem <;>
        (try subst hmem) <;> rfl
  | startTask taskId options primary hb =>
      cases primary <;> cases hb <;>
        simp [requestsOfCall, startTask, updateConnectionStatus, makeRequest, issued] at hmem <;>
        (try rcases hmem with hmem | hmem) <;> (try subst hmem) <;> rfl
  | updateProgress taskId p primary hb =>
      cases primary <;> cases hb <;>
        simp [requestsOfCall, updateProgress, updateConnectionStatus, makeRequest, issued] at hmem <;>
        (try rcases hmem with hmem | hmem) <;> (try subst hmem) <;> rfl
  | completeTask taskId r primary hb =>
      cases primary <;> cases hb <;>
        simp [requestsOfCall, completeTask, updateConnectionStatus, makeRequest, issued] at hmem <;>
        (try rcases hmem with hmem | hmem) <;> (try subst hmem) <;> rfl
  | createDiscussion d primary =>
      cases primary <;>
        simp [requestsOfCall, createDiscussion, makeRequest, issued] at hmem <;>
        (try subst hmem) <;> rfl
  | healthCheck primary =>
      cases primary <;>
        simp [requestsOfCall, healthCheck, makeRequest, issued] at hmem <;>
        (try subst hmem) <;> rfl
  | connect hb =>
      cases hb <;>
        simp [requestsOfCall, connect, updateConnectionStatus, issued] at hmem <;>
        (try subst hmem) <;> rfl
  | disconnect hb =>
      cases hb <;>
        simp [requestsOfCall, disconnect, updateConnectionStatus, issued] at hmem <;>
        (try subst hmem) <;> rfl
  | getConnectionStatus outcome =>
      cases outcome with
      | ok body =>
          cases body <;>
            simp [requestsOfCall, getConnectionStatus, issued] at hmem <;>
            (try subst hmem) <;> rfl
      | fail e =>
          simp [requestsOfCall, getConnectionStatus, issued] at hmem
          subst hmem
          rfl

/-- Claim C1, counterexample: the stated priority reads the body fields by
presence, but formatError tests JS truthiness, so a response body whose
error field is present but empty falls through to the message field. At
transport message boom with body fields error empty and message m, the code
yields m while the claim demands the empty string. -/
theorem formatError_claimed_priority_false :
    ¬ (∀ (e : TransportError) (now : String),
        (formatError e now).error = claimedErrorFieldC1 e) := by
  intro h
  have hx := h { message := "boom"
                 responseData := some { error := some "", message := some "m"
                                        code := none, details := none } } "t"
  exact absurd hx (by decide)

/-- Claim C1, amended: for every transport failure, the raised error is the
APIError produced by formatError, whose error field equals the response
body error field if present and nonempty, otherwise the body message field
if present and nonempty, otherwise the transport message if nonempty,
otherwise the fixed string Unknown API error. In particular a 401 body
whose error field is the nonempty string invalid key yields exactly that
string. -/
theorem formatError_priority (A : Type) (e : TransportError) (now : String) :
    makeRequest (A := A) (.fail e) now = .error (formatError e now) ∧
    (formatError e now).error = amendedErrorFieldC1 e := by
  refine ⟨rfl, ?_⟩
  obtain ⟨msg, rdata⟩ := e
  cases rdata with
  | none => simp [formatError, amendedErrorFieldC1, jsOr]
  | some rd =>
      obtain ⟨er, ms, co, de⟩ := rd
      cases er <;> cases ms <;> simp [formatError, amendedErrorFieldC1, jsOr]

/-- Claim C2, counterexample: the envelope data field is not present if and
only if success is true: a 2xx response with an absent body produces an
envelope with success true and data absent. -/
theorem makeRequest_data_iff_success_false :
    ¬ (∀ (A : Type) (o : TransportOutcome A) (now : String) (env : MCPResponse A),
        makeRequest o now = .ok env → (env.data.isSome ↔ env.success = true)) := by
  intro h
  have hx := h Unit (.ok none) "t"
      { success := true, data := none, error := none, timestamp := "t" } rfl
  simp at hx

/-- Claim C2, amended: every envelope a Client request produces has success
true (failures raise an APIError instead of producing an envelope), and its
data field is present exactly when the 2xx response body was present; a 2xx
response with an empty or undefined body gives success true with data
absent. -/
theorem makeRequest_envelope_data_presence (A : Type) (o : TransportOutcome A)
    (now : String) (env : MCPResponse A) (h : makeRequest o now = .ok env) :
    env.success = true ∧ env.data = o.body ∧ (env.data.isSome ↔ o.body.isSome) := by
  cases o with
  | ok body =>
      simp [makeRequest] at h
      subst h
      simp [TransportOutcome.body]
  | fail e =>
      simp [makeRequest] at h

/-- Witness for the amended C2 theorem at a concrete 2xx outcome with a
present body. -/
theorem makeRequest_envelope_data_presence_witness :
    makeRequest (A := Bool) (.ok (some true)) "t" =
      .ok { success := true, data := some true, error := none, timestamp := "t" } ∧
    (({ success := true, data := some true, error := none, timestamp := "t" } :
        MCPResponse Bool).success = true ∧
      ({ success := true, data := some true, error := none, timestamp := "t" } :
        MCPResponse Bool).data = (TransportOutcome.ok (some true)).body ∧
      (({ success := true, data := some true, error := none, timestamp := "t" } :
        MCPResponse Bool).data.isSome ↔ ((TransportOutcome.ok (some true) :
          TransportOutcome Bool)).body.isSome)) :=
  ⟨rfl, makeRequest_envelope_data_presence Bool (.ok (some true)) "t"
    { success := true, data := some true, error := none, timestamp := "t" } rfl⟩

/-- Claim C3: every HTTP request a Client issues while serving any public
call carries exactly the headers fixed at construction, so the bearer
Authorization header, the X-AI-Assistant-ID header and the Content-Type
header are present with the same construction-time values on every request
of the instance lifetime. -/
theorem client_requests_fixed_headers (c : Client) (now : String) (call : ClientCall)
    (req : IssuedRequest) (hmem : req ∈ requestsOfCall c now call) :
    req.headers = clientHeaders c.config c.freshId ∧
    req.headers.authorization = "Bearer " ++ c.config.apiKey ∧
    req.headers.xAiAssistantId = clientAssistantId c.config c.freshId ∧
    req.headers.contentType = "application/json" := by
  have hh := headers_of_mem_requestsOfCall c now call req hmem
  refine ⟨hh, ?_, ?_, ?_⟩ <;> rw [hh] <;> rfl

/-- Witness for C3: the health-check request of a concrete client. -/
theorem client_requests_fixed_headers_witness :
    issued sampleClient .get "/health" .empty
        ∈ requestsOfCall sampleClient "t" (.healthCheck (.ok none)) ∧
    ((issued sampleClient .get "/health" .empty).headers =
        clientHeaders sampleClient.config sampleClient.freshId ∧
      (issued sampleClient .get "/health" .empty).headers.authorization =
        "Bearer " ++ sampleClient.config.apiKey ∧
      (issued sampleClient .get "/health" .empty).headers.xAiAssistantId =
        clientAssistantId sampleClient.config sampleClient.freshId ∧
      (issued sampleClient .get "/health" .empty).headers.contentType =
        "application/json") :=
  have hmem : issued sampleClient .get "/health" .empty
      ∈ requestsOfCall sampleClient "t" (.healthCheck (.ok none)) := by decide
  ⟨hmem, client_requests_fixed_headers sampleClient "t" (.healthCheck (.ok none)) _ hmem⟩

/-- Claim C4: an update_progress invocation whose progress argument lies
outside the closed interval from 0 to 100 is rejected by the schema bound
min 0 max 100, issues no HTTP request and reaches no Client method. -/
theorem updateProgressTool_rejects_out_of_range (client : Option Client)
    (a : UpdateProgressArgs) (primary : TransportOutcome ProgressResponse)
    (hb : TransportOutcome Unit) (now : String)
    (h : a.progress < 0 ∨ 100 < a.progress) :
    updateProgressTool client a primary hb now = ([], .error .invalidArguments) := by
  have hv : ¬ validUpdateProgressArgs a := by
    simp only [validUpdateProgressArgs]
    omega
  simp [updateProgressTool, hv]

/-- Witness for C4 at progress 150. -/
theorem updateProgressTool_rejects_out_of_range_witness :
    ((150 : Int) < 0 ∨ (100 : Int) < 150) ∧
    updateProgressTool (some sampleClient)
        { task_id := "t1", progress := 150, status_update := "halfway"
          completed_steps := none, current_step := none, challenges := none
          files_modified := none, time_spent := none, notes := none }
        (.ok none) (.ok none) "t" = ([], .error .invalidArguments) :=
  ⟨Or.inr (by decide),
    updateProgressTool_rejects_out_of_range (some sampleClient) _ (.ok none) (.ok none) "t"
      (Or.inr (by decide))⟩

/-- Claim C5: a createDiscussion call whose request carries no urgency (no
context at all, or a context without urgency) transmits one POST whose body
has urgency medium both at top level and inside the nested context. -/
theorem createDiscussion_urgency_defaults_medium (c : Client) (d : CreateDiscussionRequest)
    (primary : TransportOutcome DiscussionResponse) (now : String)
    (h : d.context.bind (fun ctx => ctx.urgency) = none) :
    (createDiscussion c d primary now).1 =
      [issued c .post ("/projects/" ++ c.config.projectId ++ "/discuss")
        (.discuss (discussBody c d))] ∧
    (discussBody c d).urgency = .medium ∧
    (discussBody c d).context.urgency = .medium := by
  refine ⟨?_, ?_, ?_⟩
  · cases primary <;> rfl
  · simp [discussBody, h]
  · simp [discussBody, h]

/-- Witness for C5: a discussion request without any context. -/
theorem createDiscussion_urgency_defaults_medium_witness :
    ((({ topic := "Need help", message := "How should I proceed", context := none } :
        CreateDiscussionRequest)).context.bind (fun ctx => ctx.urgency) = none) ∧
    ((createDiscussion sampleClient
        { topic := "Need help", message := "How should I proceed", context := none }
        (.ok none) "t").1 =
      [issued sampleClient .post ("/projects/" ++ sampleClient.config.projectId ++ "/discuss")
        (.discuss (discussBody sampleClient
          { topic := "Need help", message := "How should I proceed", context := none }))] ∧
      (discussBody sampleClient
        { topic := "Need help", message := "How should I proceed", context := none }).urgency =
          .medium ∧
      (discussBody sampleClient
        { topic := "Need help", message := "How should I proceed",
          context := none }).context.urgency = .medium) :=
  ⟨rfl, createDiscussion_urgency_defaults_medium sampleClient
    { topic := "Need help", message := "How should I proceed", context := none }
    (.ok none) "t" rfl⟩

/-- Claim C6: disconnect returns without raising for every outcome of the
underlying heartbeat call. -/
theorem disconnect_never_throws (c : Client) (hb : TransportOutcome Unit) (now : String) :
    (disconnect c hb now).2 = .ok () := by
  cases hb <;> rfl

/-- Claim C7: a startTask call whose primary request succeeds issues
exactly the primary request followed by one heartbeat with status working
and current task id equal to the task id; the result is the primary body
for every heartbeat outcome, so a failed heartbeat is swallowed and does
not alter the returned StartTaskResponse. -/
theorem startTask_single_working_heartbeat (c : Client) (taskId : String)
    (options : StartTaskOptions) (body : Option StartTaskResponse)
    (hb : TransportOutcome Unit) (now : String) :
    startTask c taskId options (.ok body) hb now =
      ([issued c .post ("/tasks/" ++ taskId ++ "/start") (.start (startTaskBody c options)),
        issued c .post "/internal/ai-connections"
          (.heartbeat (heartbeatBody c .working (some taskId) now))],
       .ok body) ∧
    (heartbeatBody c .working (some taskId) now).status = .working ∧
    (heartbeatBody c .working (some taskId) now).current_task_id = some taskId := by
  refine ⟨?_, rfl, rfl⟩
  cases hb <;> rfl

/-- Claim C8: the body updateProgress posts to the progress endpoint is the
fixed field-renaming mapping of the external ProgressUpdate: progress
becomes completion_percentage, files_modified is sent as both files_created
and files_modified, challenges becomes blockers, and time_spent becomes
time_spent_minutes. -/
theorem updateProgress_field_mapping (c : Client) (taskId : String) (p : ProgressUpdate)
    (primary : TransportOutcome ProgressResponse) (hb : TransportOutcome Unit) (now : String) :
    (updateProgress c taskId p primary hb now).1.head? =
      some (issued c .post ("/tasks/" ++ taskId ++ "/progress")
        (.progress (updateProgressBody p))) ∧
    updateProgressBody p =
      { completion_percentage := p.progress
        files_created := p.files_modified
        files_modified := p.files_modified
        notes := p.notes
        blockers := p.challenges
        time_spent_minutes := p.time_spent
        current_step := p.current_step
        completed_steps := p.completed_steps } := by
  refine ⟨?_, rfl⟩
  cases primary <;> cases hb <;> rfl

/-- Claim C9: a getNextTask call whose 2xx response carries a body without
a task returns that body as a success, with the task field absent, and does
not raise. -/
theorem getNextTask_absent_task_success (c : Client) (now : String) (b : NextTaskResponse)
    (h : b.task = none) :
    (getNextTask c (.ok (some b)) now).2 = .ok (some b) ∧ b.task = none :=
  ⟨by rfl, h⟩

/-- Witness for C9: a concrete no-task response body. -/
theorem getNextTask_absent_task_success_witness :
    (NextTaskResponse.mk true none "No tasks available" none).task = none ∧
    ((getNextTask sampleClient
        (.ok (some (NextTaskResponse.mk true none "No tasks available" none))) "t").2 =
      .ok (some (NextTaskResponse.mk true none "No tasks available" none)) ∧
      (NextTaskResponse.mk true none "No tasks available" none).task = none) :=
  ⟨rfl, getNextTask_absent_task_success sampleClient "t"
    (NextTaskResponse.mk true none "No tasks available" none) rfl⟩

/-- Claim C10: the required status_update argument of update_progress does
not influence the observable behaviour of the tool: two invocations that
differ only in status_update issue the same requests, with identical
transmitted bodies, and return the same result. -/
theorem updateProgressTool_ignores_status_update (client : Option Client)
    (a : UpdateProgressArgs) (s1 s2 : String) (primary : TransportOutcome ProgressResponse)
    (hb : TransportOutcome Unit) (now : String) :
    updateProgressTool client { a with status_update := s1 } primary hb now =
      updateProgressTool client { a with status_update := s2 } primary hb now := by
  cases client <;> cases primary <;> cases hb <;> cases a <;> rfl

end Bldbl
